import Mathlib

/-!
Shallow embedding of the OSINT-ThreatLink Module 2 parser/correlator
(`parser_correlator.py`): the `IntelligenceGraph` container (entity store,
relationship store, value index), the source parsers and the correlation
passes, together with theorems settling the specification claims.

Modelling conventions:
* Python dicts become insertion-ordered association lists with unique keys
  (lookup returns the first occurrence, in-place mutation rewrites the first
  occurrence — for dicts built through the API the keys are unique, so first
  occurrence is the occurrence).
* `uuid4`-based fresh ids become a monotone counter carried by the graph
  (`prefix ++ toString counter`); the spec itself states any collision-free
  id scheme is acceptable.  Timestamps likewise come from the counter.
* Python `float` confidence becomes `ℚ`; every confidence literal in the
  module (0.8, 0.9, 0.95, 1.0, 1.5, -0.1) compares identically in both.
* Raised exceptions become `Except PyError`; `ValueError` is what the spec
  calls `ValidationError`, `KeyError` what it calls `ReferenceError`.
  Raising in Python happens before any mutation in the modelled paths, so an
  `Except.error` result models "graph left unchanged".
-/

namespace ThreatLink

/-- Values stored in the loosely typed Python metadata dicts, restricted to
the shapes this module actually stores. -/
inductive MetaVal where
  | b (v : Bool)
  | n (v : Nat)
  | s (v : String)
  | ls (v : List String)
  deriving DecidableEq, Repr

/-- A Python metadata dict: insertion-ordered string-keyed association list. -/
abbrev Metadata := List (String × MetaVal)

/-- First-occurrence association-list lookup (Python `d[k]` / `d.get(k)`). -/
def alist_get {α : Type} : List (String × α) → String → Option α
  | [], _ => none
  | p :: rest, k => if p.1 = k then some p.2 else alist_get rest k

/-- Python `d[k] = v`: replace the (unique) existing occurrence in place,
else append at the end. -/
def Metadata.set : Metadata → String → MetaVal → Metadata
  | [], k, v => [(k, v)]
  | p :: rest, k, v => if p.1 = k then (k, v) :: rest else p :: Metadata.set rest k v

/-- Python `old.update(upd)`: set every key of `upd` into `old`, left to
right, so keys of `upd` win. -/
def Metadata.update (old upd : Metadata) : Metadata :=
  upd.foldl (fun acc p => Metadata.set acc p.1 p.2) old

/-- Lookup in a metadata dict. -/
def Metadata.get (m : Metadata) (k : String) : Option MetaVal :=
  alist_get m k

/-- Python `str.lower()` (ASCII case-fold, as every value this module
handles is ASCII). -/
def py_lower (s : String) : String :=
  String.mk (s.toList.map Char.toLower)

/-- Python `str.strip()`: drop leading and trailing whitespace. -/
def py_strip (s : String) : String :=
  String.mk (((s.toList.dropWhile Char.isWhitespace).reverse.dropWhile
    Char.isWhitespace).reverse)

/-- `_normalize_value`: `value.strip().lower()`. -/
def normalize_value (value : String) : String :=
  py_lower (py_strip value)

/-- `Entity` dataclass. -/
structure Entity where
  id : String
  type : String
  value : String
  source : String
  timestamp : String
  metadata : Metadata
  deriving DecidableEq, Repr

/-- `Relationship` dataclass.  Confidence is validated by `__post_init__`,
modelled at the (single) construction site inside `add_relationship`. -/
structure Relationship where
  id : String
  source_id : String
  target_id : String
  relationship_type : String
  confidence : ℚ
  metadata : Metadata
  deriving DecidableEq, Repr

/-- Python exceptions raised by the graph operations: `ValueError` is the
spec's `ValidationError`, `KeyError` the spec's `ReferenceError`. -/
inductive PyError where
  | valueError (msg : String)
  | keyError (msg : String)
  deriving DecidableEq, Repr

/-- Decidable equality of fallible results, so witness facts about concrete
operation outcomes can be settled by evaluation. -/
instance {ε α : Type} [DecidableEq ε] [DecidableEq α] : DecidableEq (Except ε α) := fun a b =>
  match a, b with
  | .ok x, .ok y =>
      if h : x = y then isTrue (by rw [h]) else isFalse (fun hc => h (by injection hc))
  | .ok _, .error _ => isFalse (fun hc => Except.noConfusion hc)
  | .error _, .ok _ => isFalse (fun hc => Except.noConfusion hc)
  | .error x, .error y =>
      if h : x = y then isTrue (by rw [h]) else isFalse (fun hc => h (by injection hc))

/-- `IntelligenceGraph`: entity map, relationship map and the secondary
`(type:normalized value) -> entity id` index, each insertion-ordered, plus
the fresh-id counter standing in for `uuid4`. -/
structure Graph where
  target : String
  entities : List (String × Entity)
  relationships : List (String × Relationship)
  value_index : List (String × String)
  counter : Nat
  deriving DecidableEq, Repr

/-- `IntelligenceGraph.__init__`. -/
def Graph.init (target_domain : String) : Graph :=
  Graph.mk target_domain [] [] [] 0

/-- In-place metadata merge on the entity stored under `eid`
(`self.entities[existing_id].metadata.update(metadata)`). -/
def update_entity_meta : List (String × Entity) → String → Metadata → List (String × Entity)
  | [], _, _ => []
  | p :: rest, eid, md =>
      if p.1 = eid then
        (p.1, Entity.mk p.2.id p.2.type p.2.value p.2.source p.2.timestamp
          (Metadata.update p.2.metadata md)) :: rest
      else p :: update_entity_meta rest eid md

/-- `IntelligenceGraph.add_entity`.  Rejects a falsy (empty) raw value, then
dedups through the value index: on a hit the existing entity's metadata is
merged (when the new metadata dict is truthy) and the existing id returned;
otherwise a fresh entity is created and indexed. -/
def add_entity (g : Graph) (entity_type value source : String) (metadata : Metadata) :
    Except PyError (Graph × String) :=
  if value = "" then .error (.valueError "value must be non-empty")
  else
    let norm := normalize_value value
    let key := entity_type ++ ":" ++ norm
    match alist_get g.value_index key with
    | some existing_id =>
        match alist_get g.entities existing_id with
        | none => .error (.keyError existing_id)
        | some _ =>
            let g' :=
              if metadata = [] then g
              else Graph.mk g.target (update_entity_meta g.entities existing_id metadata)
                g.relationships g.value_index g.counter
            .ok (g', existing_id)
    | none =>
        let eid := entity_type ++ "_" ++ toString g.counter
        let e := Entity.mk eid entity_type value source ("t" ++ toString g.counter) metadata
        .ok (Graph.mk g.target (g.entities ++ [(eid, e)]) g.relationships
          (g.value_index ++ [(key, eid)]) (g.counter + 1), eid)

/-- The duplicate scan of `add_relationship`: first stored relationship with
the given `(source_id, target_id, relationship_type)` triple, with its key. -/
def find_dup_pair : List (String × Relationship) → String → String → String →
    Option (String × Relationship)
  | [], _, _, _ => none
  | p :: rest, s, t, ty =>
      if p.2.source_id = s ∧ p.2.target_id = t ∧ p.2.relationship_type = ty then some p
      else find_dup_pair rest s t ty

/-- Id of the first duplicate relationship, mirroring the `return rid` of the
Python scan. -/
def find_dup_rel (l : List (String × Relationship)) (s t ty : String) : Option String :=
  (find_dup_pair l s t ty).map Prod.fst

/-- In-place metadata merge on the first relationship matching the triple
(`rel.metadata.update(metadata)` on the object found by the scan). -/
def update_first_rel : List (String × Relationship) → String → String → String → Metadata →
    List (String × Relationship)
  | [], _, _, _, _ => []
  | p :: rest, s, t, ty, md =>
      if p.2.source_id = s ∧ p.2.target_id = t ∧ p.2.relationship_type = ty then
        (p.1, Relationship.mk p.2.id p.2.source_id p.2.target_id p.2.relationship_type
          p.2.confidence (Metadata.update p.2.metadata md)) :: rest
      else p :: update_first_rel rest s t ty md

/-- `IntelligenceGraph.add_relationship`.  Endpoint existence is checked
first (`KeyError`), then the duplicate scan (merge metadata when truthy and
return the existing id — note the confidence argument is not validated nor
stored on this path), and only then a fresh `Relationship` is constructed,
whose `__post_init__` validates the confidence range. -/
def add_relationship (g : Graph) (source_id target_id rel_type : String)
    (confidence : ℚ) (metadata : Metadata) : Except PyError (Graph × String) :=
  if (alist_get g.entities source_id).isNone || (alist_get g.entities target_id).isNone then
    .error (.keyError "Both source_id and target_id must exist as entities")
  else
    match find_dup_rel g.relationships source_id target_id rel_type with
    | some rid =>
        let g' :=
          if metadata = [] then g
          else Graph.mk g.target g.entities
            (update_first_rel g.relationships source_id target_id rel_type metadata)
            g.value_index g.counter
        .ok (g', rid)
    | none =>
        if 0 ≤ confidence ∧ confidence ≤ 1 then
          let rid := "rel_" ++ toString g.counter
          let r := Relationship.mk rid source_id target_id rel_type confidence metadata
          .ok (Graph.mk g.target g.entities (g.relationships ++ [(rid, r)])
            g.value_index (g.counter + 1), rid)
        else .error (.valueError "confidence must be between 0.0 and 1.0")

/-- `IntelligenceGraph.get_entity_by_value`, untyped branch inner scan: walk
the value index in insertion order and on the first key whose part after the
first colon equals `norm`, return the entity lookup (even when that lookup
misses — the Python `return` fires there). -/
def scan_index_for_norm (entities : List (String × Entity)) :
    List (String × String) → String → Option Entity
  | [], _ => none
  | (k, eid) :: rest, norm =>
      if String.mk ((k.toList.dropWhile (fun c => c ≠ ':')).drop 1) = norm then
        alist_get entities eid
      else scan_index_for_norm entities rest norm

/-- `IntelligenceGraph.get_entity_by_value`: `None` values short-circuit to
`None`; with a type, an index lookup; without, the insertion-order scan. -/
def get_entity_by_value (g : Graph) (value : Option String) (entity_type : Option String) :
    Option Entity :=
  match value with
  | none => none
  | some v =>
      let norm := normalize_value v
      match entity_type with
      | some t =>
          match alist_get g.value_index (t ++ ":" ++ norm) with
          | some eid => alist_get g.entities eid
          | none => none
      | none => scan_index_for_norm g.entities g.value_index norm

/-- `IntelligenceGraph.get_connected_entities`: walk the relationships in
insertion order, appending the opposite endpoint of every relationship
incident to `entity_id` (source tested first, `elif` target).  A dangling
endpoint — impossible for graphs built through `add_relationship`, which
checks both ends — contributes nothing here, where the Python indexing
would raise. -/
def get_connected_entities (g : Graph) (entity_id : String) : List Entity :=
  g.relationships.foldl (fun connected p =>
    if p.2.source_id = entity_id then
      match alist_get g.entities p.2.target_id with
      | some e => connected ++ [e]
      | none => connected
    else if p.2.target_id = entity_id then
      match alist_get g.entities p.2.source_id with
      | some e => connected ++ [e]
      | none => connected
    else connected) []

/-- Char-list prefix test, used to implement Python's substring operator. -/
def pre_of : List Char → List Char → Bool
  | [], _ => true
  | _ :: _, [] => false
  | a :: xs, b :: ys => a = b && pre_of xs ys

/-- Python's `needle in hay` on strings: contiguous-substring test (the
empty needle matches, as in Python). -/
def sub_of : List Char → List Char → Bool
  | needle, [] => pre_of needle []
  | needle, b :: ys => pre_of needle (b :: ys) || sub_of needle ys

/-- `email.split('@')[0]`: everything before the first `@` (the whole string
when there is no `@`). -/
def before_at (email : String) : String :=
  String.mk (email.toList.takeWhile (fun c => c ≠ '@'))

/-- `email.split('@')[1] if '@' in email else ""`: the chunk between the
first and second `@`, empty when there is no `@`. -/
def after_at (email : String) : String :=
  String.mk (((email.toList.dropWhile (fun c => c ≠ '@')).drop 1).takeWhile (fun c => c ≠ '@'))

/-- Character classes of the `_is_valid_email` regex
`[a-zA-Z0-9._%+-]+@[a-zA-Z0-9.-]+\.[a-zA-Z]\x7b2,\x7d` (fully anchored). -/
def is_alpha_char (c : Char) : Bool :=
  ('a' ≤ c && c ≤ 'z') || ('A' ≤ c && c ≤ 'Z')

def is_local_char (c : Char) : Bool :=
  is_alpha_char c || ('0' ≤ c && c ≤ '9') || c = '.' || c = '_' || c = '%' || c = '+' || c = '-'

def is_domain_char (c : Char) : Bool :=
  is_alpha_char c || ('0' ≤ c && c ≤ '9') || c = '.' || c = '-'

/-- Domain tail of the email regex, `[a-zA-Z0-9.-]+\.[a-zA-Z]\x7b2,\x7d`
anchored on both sides.  The trailing letter block contains no dot, so the
escaped dot of a match is necessarily the last dot of the string: split
there. -/
def matches_email_domain (rest : List Char) : Bool :=
  let tld := (rest.reverse.takeWhile (fun c => c ≠ '.')).reverse
  let pre := rest.take (rest.length - tld.length - 1)
  decide (tld.length < rest.length) &&
    decide (2 ≤ tld.length) && tld.all is_alpha_char &&
    decide (pre ≠ []) && pre.all is_domain_char

/-- `OSINTParser._is_valid_email`: anchored match of
`^[a-zA-Z0-9._%+-]+@[a-zA-Z0-9.-]+\.[a-zA-Z]\x7b2,\x7d$`.  Neither character
class contains `@`, so a match splits the string at its first `@`. -/
def is_valid_email (email : String) : Bool :=
  let cs := email.toList
  let l := cs.takeWhile (fun c => c ≠ '@')
  let r := (cs.dropWhile (fun c => c ≠ '@')).drop 1
  decide (l.length < cs.length) && decide (l ≠ []) && l.all is_local_char &&
    matches_email_domain r

/-- `config.RISK_KEYWORDS["subdomains"]`, in dict insertion order. -/
def RISK_KEYWORDS_subdomains : List (String × List String) :=
  [("high", ["vpn", "admin", "root", "backup", "test", "dev", "staging"]),
   ("medium", ["portal", "login", "secure", "api", "remote"]),
   ("low", ["www", "blog", "shop", "news"])]

/-- `OSINTParser._check_risk_keywords`: every configured keyword occurring
in the case-folded subdomain, tagged with its tier. -/
def check_risk_keywords (subdomain : String) : List String :=
  let lower := py_lower subdomain
  RISK_KEYWORDS_subdomains.foldl (fun acc p =>
    p.2.foldl (fun acc2 kw =>
      if sub_of kw.toList lower.toList then acc2 ++ [kw ++ "_" ++ p.1] else acc2) acc) []

/-- `OSINTParser.__init__`: fresh graph seeded with the root domain entity;
returns the graph and `root_domain_id`. -/
def mkParser (target_domain : String) : Except PyError (Graph × String) :=
  add_entity (Graph.init target_domain) "domain" target_domain "user_input"
    [("is_root", MetaVal.b true)]

/-- Body of the `parse_subdomains` loop for one subdomain. -/
def parse_subdomain_one (root_domain_id : String) (g : Graph) (subdomain : String) :
    Except PyError Graph :=
  if subdomain = "" then .ok g
  else if normalize_value subdomain = normalize_value g.target then .ok g
  else do
    let (g1, subdomain_id) ← add_entity g "subdomain" subdomain "subfinder"
      [("parent_domain", MetaVal.s g.target),
       ("risk_keywords", MetaVal.ls (check_risk_keywords subdomain))]
    let (g2, _) ← add_relationship g1 subdomain_id root_domain_id "subdomain_of" 1 []
    .ok g2

/-- `OSINTParser.parse_subdomains`. -/
def parse_subdomains (g : Graph) (root_domain_id : String) (subdomains : List String) :
    Except PyError Graph :=
  subdomains.foldlM (parse_subdomain_one root_domain_id) g

/-- The root-entity metadata updates of `parse_whois`: copy each of the three
keys from the WHOIS mapping when present and truthy. -/
def whois_root_update (entities : List (String × Entity)) (root_id : String)
    (whois_data : List (String × String)) : List (String × Entity) :=
  ["registrar", "creation_date", "expiration_date"].foldl (fun ents key =>
    match alist_get whois_data key with
    | some v => if v = "" then ents else update_entity_meta ents root_id [(key, MetaVal.s v)]
    | none => ents) entities

/-- Body of the `parse_whois` email loop for one email string. -/
def parse_whois_email_one (root_domain_id : String) (g : Graph) (email : String) :
    Except PyError Graph :=
  if email ≠ "" ∧ is_valid_email email then do
    let (g1, email_id) ← add_entity g "email" email "whois"
      [("domain", MetaVal.s (after_at email))]
    let (g2, _) ← add_relationship g1 email_id root_domain_id "registered_to" (mkRat 9 10) []
    .ok g2
  else .ok g

/-- `OSINTParser.parse_whois`. -/
def parse_whois (g : Graph) (root_domain_id : String)
    (whois_data : List (String × String)) (emails : List String) : Except PyError Graph :=
  let g0 :=
    if whois_data = [] then g
    else Graph.mk g.target (whois_root_update g.entities root_domain_id whois_data)
      g.relationships g.value_index g.counter
  emails.foldlM (parse_whois_email_one root_domain_id) g0

/-- Body of the `parse_emails` loop for one email string: email entity with
`associated_with` edge to the root, then the derived username entity with a
`username_of` edge to the email. -/
def parse_email_one (root_domain_id source : String) (g : Graph) (email : String) :
    Except PyError Graph :=
  if is_valid_email email then do
    let (g1, email_id) ← add_entity g "email" email source
      [("domain", MetaVal.s (after_at email))]
    let (g2, _) ← add_relationship g1 email_id root_domain_id "associated_with" (mkRat 8 10) []
    let (g3, username_id) ← add_entity g2 "username" (before_at email)
      (source ++ "_derived") [("derived_from", MetaVal.s "email")]
    let (g4, _) ← add_relationship g3 username_id email_id "username_of" (mkRat 9 10) []
    .ok g4
  else .ok g

/-- `OSINTParser.parse_emails`. -/
def parse_emails (g : Graph) (root_domain_id source : String) (emails : List String) :
    Except PyError Graph :=
  emails.foldlM (parse_email_one root_domain_id source) g

/-- `OSINTParser.correlate_emails_and_subdomains`: for every email × subdomain
entity pair (insertion-order snapshots), when the email's domain part is
truthy and a substring of the subdomain value or vice versa, add an
`email_from_subdomain` edge at confidence 0.8. -/
def correlate_emails_and_subdomains (g : Graph) : Except PyError Graph :=
  let entities := g.entities.map Prod.snd
  let subdomains := entities.filter (fun e => e.type = "subdomain")
  let emails := entities.filter (fun e => e.type = "email")
  emails.foldlM (fun ga email_entity =>
    let email_domain := after_at email_entity.value
    subdomains.foldlM (fun gb subdomain_entity =>
      if email_domain ≠ "" ∧
          (sub_of email_domain.toList subdomain_entity.value.toList ∨
           sub_of subdomain_entity.value.toList email_domain.toList) then
        (add_relationship gb email_entity.id subdomain_entity.id "email_from_subdomain"
          (mkRat 8 10) [("correlation_type", MetaVal.s "domain_match")]).map Prod.fst
      else .ok gb) ga) g

/-- `defaultdict(list)` grouping of username entity ids by normalized value:
groups in first-touch order, ids appended in entity-insertion order. -/
def add_to_group (groups : List (String × List String)) (k eid : String) :
    List (String × List String) :=
  match groups with
  | [] => [(k, [eid])]
  | p :: rest => if p.1 = k then (p.1, p.2 ++ [eid]) :: rest else p :: add_to_group rest k eid

/-- The username grouping pass of `correlate_usernames_across_sources`. -/
def group_usernames (entities : List (String × Entity)) : List (String × List String) :=
  entities.foldl (fun groups p =>
    if p.2.type = "username" then add_to_group groups (normalize_value p.2.value) p.1
    else groups) []

/-- All ordered pairs `(ids[i], ids[j])` with `i < j`, in the double-loop
order of the Python code. -/
def all_pairs : List String → List (String × String)
  | [] => []
  | x :: xs => xs.map (fun y => (x, y)) ++ all_pairs xs

/-- `OSINTParser.correlate_usernames_across_sources`: for every group of
username entities sharing a normalized value with more than one member, add a
pairwise `same_username` edge at confidence 1.0. -/
def correlate_usernames_across_sources (g : Graph) : Except PyError Graph :=
  (group_usernames g.entities).foldlM (fun ga p =>
    if 1 < p.2.length then
      (all_pairs p.2).foldlM (fun gb pr =>
        (add_relationship gb pr.1 pr.2 "same_username" 1 []).map Prod.fst) ga
    else .ok ga) g

/-- Degree of an entity id: endpoint occurrences over all relationships, a
self-loop counting twice (`connection_counts` of the Python code). -/
def degree (rels : List (String × Relationship)) (entity_id : String) : Nat :=
  rels.foldl (fun n p =>
    n + (if p.2.source_id = entity_id then 1 else 0) +
      (if p.2.target_id = entity_id then 1 else 0)) 0

/-- One entity's treatment in `identify_high_value_targets`: when its degree
reaches the threshold, `high_value_target: true` and
`connection_count: <degree>` are set into its metadata. -/
def hvt_mark (rels : List (String × Relationship)) (threshold : Nat)
    (p : String × Entity) : String × Entity :=
  if threshold ≤ degree rels p.1 then
    (p.1, Entity.mk p.2.id p.2.type p.2.value p.2.source p.2.timestamp
      (Metadata.set (Metadata.set p.2.metadata "high_value_target" (MetaVal.b true))
        "connection_count" (MetaVal.n (degree rels p.1))))
  else p

/-- `OSINTParser.identify_high_value_targets`.  The Python code walks the
endpoint-count dict and writes into `entities[entity_id]`; mapping the
marking over the entity store is the same transformation whenever every
relationship endpoint is a stored entity key, which `add_relationship`
guarantees. -/
def identify_high_value_targets (g : Graph) (threshold : Nat) : Graph :=
  Graph.mk g.target (g.entities.map (hvt_mark g.relationships threshold))
    g.relationships g.value_index g.counter

/-- Number of stored relationships of a given type (one bucket of the
`_count_relationship_types` histogram). -/
def count_rel_type (g : Graph) (ty : String) : Nat :=
  (g.relationships.filter (fun p => p.2.relationship_type = ty)).length

/-- Number of stored entities of a given type (one bucket of the
`_count_entity_types` histogram). -/
def count_entity_type (g : Graph) (ty : String) : Nat :=
  (g.entities.filter (fun p => p.2.type = ty)).length

/-- The C1 scenario: parser seeded with root `example.com`, the two emails
`dev@test.example.com` and `dev@sales.example.com` parsed, then the username
correlation pass. -/
def c1_result : Except PyError Graph := do
  let (g, root) ← mkParser "example.com"
  let g1 ← parse_emails g root "theharvester" ["dev@test.example.com", "dev@sales.example.com"]
  correlate_usernames_across_sources g1

/-- The C2 end-to-end bundle: target `example.com`, the two subdomains and
one email, run through the pipeline order of `DataCorrelator.parse_all`
(subdomains, whois — the email list is present so the whois branch runs with
an empty mapping — then emails) and the email–subdomain correlation pass. -/
def c2_result : Except PyError Graph := do
  let (g, root) ← mkParser "example.com"
  let g1 ← parse_subdomains g root ["www.example.com", "vpn.example.com"]
  let g2 ← parse_whois g1 root [] ["admin@example.com"]
  let g3 ← parse_emails g2 root "theharvester" ["admin@example.com"]
  correlate_emails_and_subdomains g3

/-- A small graph state for C3/C6/C7: two email entities and one existing
`related_to` relationship between them, built through the API. -/
def c3_build : Except PyError Graph := do
  let g0 := Graph.init "test.com"
  let (g1, e1) ← add_entity g0 "email" "test1@test.com" "source1" []
  let (g2, e2) ← add_entity g1 "email" "test2@test.com" "source2" []
  let (g3, _) ← add_relationship g2 e1 e2 "related_to" (mkRat 9 10) []
  .ok g3

/-- The graph of `c3_build` (its construction cannot fail; the fallback arm
is never taken). -/
def c3_graph : Graph :=
  match c3_build with
  | .ok g => g
  | .error _ => Graph.init "test.com"

/-- A graph exercising the high-value detection: four entities, with `a`
touched by exactly 3 relationships and `b` by exactly 2. -/
def c8_build : Except PyError Graph := do
  let g0 := Graph.init "test.com"
  let (g1, a) ← add_entity g0 "domain" "a.test.com" "s" []
  let (g2, b) ← add_entity g1 "domain" "b.test.com" "s" []
  let (g3, c) ← add_entity g2 "domain" "c.test.com" "s" []
  let (g4, d) ← add_entity g3 "domain" "d.test.com" "s" []
  let (g5, _) ← add_relationship g4 a b "r1" 1 []
  let (g6, _) ← add_relationship g5 a c "r2" 1 []
  let (g7, _) ← add_relationship g6 d a "r3" 1 []
  let (g8, _) ← add_relationship g7 b c "r4" 1 []
  .ok g8

/-- The graph of `c8_build`. -/
def c8_graph : Graph :=
  match c8_build with
  | .ok g => g
  | .error _ => Graph.init "test.com"

/-- Everything of a stored relationship except its metadata: key, id,
endpoints, type and confidence.  Used to state that a repeated add changes
none of these. -/
def rel_core (p : String × Relationship) :
    String × String × String × String × String × ℚ :=
  (p.1, p.2.id, p.2.source_id, p.2.target_id, p.2.relationship_type, p.2.confidence)

/-- First graph state of the C5 witness: one email entity added with
metadata, under a mixed-case raw value. -/
def c5_g1 : Graph :=
  match add_entity (Graph.init "witness.com") "email" "Test@Test.com" "source1"
      [("a", MetaVal.s "1")] with
  | .ok (g, _) => g
  | .error _ => Graph.init "witness.com"

/-- C10: `get_entity_by_value` called with a `None` value returns not-found
(`none`) without raising, before normalization is ever attempted; being a
pure function of the graph, the lookup never mutates it. -/
theorem get_entity_by_value_none (g : Graph) (entity_type : Option String) :
    get_entity_by_value g none entity_type = none :=
  rfl

/-- C4 counterexample: `add_entity` on a whitespace-only value does not fail
— the falsy check only rejects the raw empty string — and it creates an
entity (indexed under the empty normalized value), contradicting the claim
that any value empty after normalization is rejected. -/
theorem c4_whitespace_value_creates_entity :
    add_entity (Graph.init "example.com") "username" "   " "whois" [] =
      .ok (Graph.mk "example.com"
        [("username_0", Entity.mk "username_0" "username" "   " "whois" "t0" [])]
        [] [("username:", "username_0")] 1, "username_0") ∧
    normalize_value "   " = "" := by
  decide

/-- C4 (amended): `add_entity` rejects only the raw empty string — for every
graph state it fails with the `ValueError` (`ValidationError`) and, the error
being raised before any mutation, creates no entity; a whitespace-only value
is accepted (see the counterexample). -/
theorem add_entity_empty_value_fails (g : Graph) (entity_type source : String)
    (metadata : Metadata) :
    add_entity g entity_type "" source metadata =
      .error (.valueError "value must be non-empty") := by
  simp [add_entity]

/-- C7: `add_relationship` with an unknown source or target id always fails
with the `KeyError` (`ReferenceError`).  The check precedes every mutation,
so the error result models a graph left unchanged — no relationship is
added and no entity or relationship is modified. -/
theorem add_relationship_unknown_id (g : Graph) (source_id target_id rel_type : String)
    (confidence : ℚ) (metadata : Metadata)
    (h : alist_get g.entities source_id = none ∨ alist_get g.entities target_id = none) :
    add_relationship g source_id target_id rel_type confidence metadata =
      .error (.keyError "Both source_id and target_id must exist as entities") := by
  rcases h with h | h <;> simp [add_relationship, h]

/-- Witness for C7: on the concrete two-entity graph, a call naming a
missing source id fails with the `KeyError`. -/
theorem add_relationship_unknown_id_witness :
    (alist_get c3_graph.entities "missing_id" = none ∨
      alist_get c3_graph.entities "email_1" = none) ∧
    add_relationship c3_graph "missing_id" "email_1" "related_to" 1 [] =
      .error (.keyError "Both source_id and target_id must exist as entities") :=
  ⟨Or.inl (by decide),
    add_relationship_unknown_id c3_graph "missing_id" "email_1" "related_to" 1 []
      (Or.inl (by decide))⟩

/-- C1 counterexample: in the two-email scenario the username correlation
pass leaves zero `same_username` relationships, not exactly one. -/
theorem c1_same_username_count_ne_one :
    (c1_result.toOption.map (fun g => count_rel_type g "same_username")) ≠ some 1 := by
  decide

/-- C1 (amended): the two emails `dev@test.example.com` and
`dev@sales.example.com` derive a single shared `username` entity `"dev"` —
`add_entity` dedups on `(type, normalized value)` — so every username group
has one member and the correlation pass adds no `same_username`
relationship; each email keeps its own `username_of` edge to that entity. -/
theorem c1_single_username_entity_no_same_username :
    (c1_result.toOption.map (fun g =>
      (count_rel_type g "same_username", count_entity_type g "username",
        count_rel_type g "username_of"))) = some (0, 1, 2) ∧
    (c1_result.toOption.map (fun g =>
      (g.entities.filter (fun p => p.2.type = "username")).map (fun p => p.2.value))) =
      some ["dev"] := by
  decide

/-- C2 counterexample: on the end-to-end bundle the email–subdomain
correlation pass does add `email_from_subdomain` relationships (the count is
not zero): `example.com` is a substring of both subdomain values. -/
theorem c2_email_from_subdomain_count_ne_zero :
    (c2_result.toOption.map (fun g => count_rel_type g "email_from_subdomain")) ≠
      some 0 := by
  decide

/-- C2 (amended): on the end-to-end bundle the correlation pass adds exactly
two `email_from_subdomain` relationships at confidence 0.8, one from the
email entity to each subdomain entity, because the email's domain part
`example.com` is a substring of `www.example.com` and of `vpn.example.com`. -/
theorem c2_email_from_subdomain_two_edges :
    (c2_result.toOption.map (fun g => count_rel_type g "email_from_subdomain")) = some 2 ∧
    (c2_result.toOption.map (fun g =>
      (g.relationships.filter (fun p => p.2.relationship_type = "email_from_subdomain")).map
        (fun p => (p.2.source_id, p.2.target_id, p.2.confidence)))) =
      some [("email_5", "subdomain_1", mkRat 8 10), ("email_5", "subdomain_3", mkRat 8 10)] := by
  decide

/-- C3 counterexample: on a graph already holding the
`(email_0, email_1, related_to)` relationship, `add_relationship` with the
out-of-range confidence 1.5 does not fail — the duplicate scan returns the
existing id before the confidence is ever validated — and even returns the
graph unchanged rather than raising. -/
theorem c3_duplicate_triple_ignores_bad_confidence :
    (alist_get c3_graph.entities "email_0").isSome = true ∧
    (alist_get c3_graph.entities "email_1").isSome = true ∧
    ¬ (mkRat 3 2 ≤ 1) ∧
    add_relationship c3_graph "email_0" "email_1" "related_to" (mkRat 3 2) [] =
      .ok (c3_graph, "rel_2") := by
  decide

/-- C3 (amended): `add_relationship` with a confidence outside `[0, 1]`
fails with the `ValueError` (`ValidationError`) — leaving the graph
unmutated, the error being raised before the store is touched — provided
both endpoint ids exist and no relationship with the same
`(source, target, type)` triple is already stored; on a duplicate triple the
confidence argument is ignored and the call succeeds (see the
counterexample). -/
theorem add_relationship_bad_confidence (g : Graph)
    (source_id target_id rel_type : String) (confidence : ℚ) (metadata : Metadata)
    (hs : (alist_get g.entities source_id).isSome = true)
    (ht : (alist_get g.entities target_id).isSome = true)
    (hdup : find_dup_rel g.relationships source_id target_id rel_type = none)
    (hc : ¬ (0 ≤ confidence ∧ confidence ≤ 1)) :
    add_relationship g source_id target_id rel_type confidence metadata =
      .error (.valueError "confidence must be between 0.0 and 1.0") := by
  rcases Option.isSome_iff_exists.mp hs with ⟨es, hes⟩
  rcases Option.isSome_iff_exists.mp ht with ⟨et, het⟩
  simp [add_relationship, hes, het, hdup, hc]

/-- Witness for the amended C3: on the concrete two-entity graph, a call
with a fresh relationship type and confidence 1.5 fails with the
`ValueError`. -/
theorem add_relationship_bad_confidence_witness :
    (alist_get c3_graph.entities "email_0").isSome = true ∧
    (alist_get c3_graph.entities "email_1").isSome = true ∧
    find_dup_rel c3_graph.relationships "email_0" "email_1" "other_rel" = none ∧
    ¬ ((0 : ℚ) ≤ mkRat 3 2 ∧ mkRat 3 2 ≤ 1) ∧
    add_relationship c3_graph "email_0" "email_1" "other_rel" (mkRat 3 2) [] =
      .error (.valueError "confidence must be between 0.0 and 1.0") :=
  ⟨by decide, by decide, by decide, by decide,
    add_relationship_bad_confidence c3_graph "email_0" "email_1" "other_rel" (mkRat 3 2) []
      (by decide) (by decide) (by decide) (by decide)⟩

lemma gce_foldl_aux (g : Graph) (i : String) (rels : List (String × Relationship))
    (acc : List Entity) :
    rels.foldl (fun connected p =>
      if p.2.source_id = i then
        match alist_get g.entities p.2.target_id with
        | some e => connected ++ [e]
        | none => connected
      else if p.2.target_id = i then
        match alist_get g.entities p.2.source_id with
        | some e => connected ++ [e]
        | none => connected
      else connected) acc
      = acc ++ rels.filterMap (fun p =>
          if p.2.source_id = i then alist_get g.entities p.2.target_id
          else if p.2.target_id = i then alist_get g.entities p.2.source_id
          else none) := by
  induction rels generalizing acc with
  | nil => simp
  | cons p ps ih =>
    rw [List.foldl_cons, List.filterMap_cons, ih]
    by_cases h1 : p.2.source_id = i
    · cases h : alist_get g.entities p.2.target_id <;> simp [h1, h]
    · by_cases h2 : p.2.target_id = i
      · cases h : alist_get g.entities p.2.source_id <;> simp [h1, h2, h]
      · simp [h1, h2]

/-- C9: `get_connected_entities` returns exactly the opposite endpoints of
the relationships incident to the given id, one entry per incident
relationship, in relationship-insertion order (the `filterMap`
characterization); membership is equivalent to being one relationship away
in either direction.  The operation is a pure function of the graph, so it
is finite, mutates nothing, and repeated calls return the same list. -/
theorem get_connected_entities_spec (g : Graph) (entity_id : String) :
    get_connected_entities g entity_id
      = g.relationships.filterMap (fun p =>
          if p.2.source_id = entity_id then alist_get g.entities p.2.target_id
          else if p.2.target_id = entity_id then alist_get g.entities p.2.source_id
          else none) ∧
    ∀ e, e ∈ get_connected_entities g entity_id ↔
      ∃ p, p ∈ g.relationships ∧
        ((p.2.source_id = entity_id ∧ alist_get g.entities p.2.target_id = some e) ∨
         (p.2.source_id ≠ entity_id ∧ p.2.target_id = entity_id ∧
           alist_get g.entities p.2.source_id = some e)) := by
  have hmain := gce_foldl_aux g entity_id g.relationships []
  rw [List.nil_append] at hmain
  refine ⟨hmain, fun e => ?_⟩
  rw [get_connected_entities, hmain, List.mem_filterMap]
  refine exists_congr fun p => and_congr_right fun _ => ?_
  by_cases h1 : p.2.source_id = entity_id <;> by_cases h2 : p.2.target_id = entity_id <;>
    simp [h1, h2]

lemma Metadata.get_set_self (m : Metadata) (k : String) (v : MetaVal) :
    Metadata.get (Metadata.set m k v) k = some v := by
  induction m with
  | nil => simp [Metadata.set, Metadata.get, alist_get]
  | cons p rest ih =>
    by_cases h : p.1 = k
    · simp [Metadata.set, Metadata.get, alist_get, h]
    · simp only [Metadata.set, Metadata.get, alist_get, h, if_false, ite_false]
      exact ih

lemma Metadata.get_set_ne (m : Metadata) (k k' : String) (v : MetaVal) (h : k' ≠ k) :
    Metadata.get (Metadata.set m k v) k' = Metadata.get m k' := by
  induction m with
  | nil => simp [Metadata.set, Metadata.get, alist_get, Ne.symm h]
  | cons p rest ih =>
    by_cases hp : p.1 = k
    · simp [Metadata.set, Metadata.get, alist_get, hp, Ne.symm h]
    · by_cases hk : p.1 = k'
      · simp [Metadata.set, Metadata.get, alist_get, hp, hk, h]
      · simp only [Metadata.set, Metadata.get, alist_get, hp, hk, if_false, ite_false]
        exact ih

/-- C8: after the high-value target detection pass at the default threshold
3, run on a graph whose entities do not yet carry either annotation, every
entity whose degree (endpoint occurrences over all relationships) is at
least 3 carries `high_value_target: true` and `connection_count` equal to
that degree, and every entity of degree at most 2 carries neither key. -/
theorem identify_high_value_targets_spec (g : Graph)
    (hclean : ∀ p ∈ g.entities,
      Metadata.get p.2.metadata "high_value_target" = none ∧
      Metadata.get p.2.metadata "connection_count" = none) :
    ∀ p ∈ (identify_high_value_targets g 3).entities,
      (3 ≤ degree g.relationships p.1 →
        Metadata.get p.2.metadata "high_value_target" = some (MetaVal.b true) ∧
        Metadata.get p.2.metadata "connection_count" =
          some (MetaVal.n (degree g.relationships p.1))) ∧
      (degree g.relationships p.1 < 3 →
        Metadata.get p.2.metadata "high_value_target" = none ∧
        Metadata.get p.2.metadata "connection_count" = none) := by
  intro p hp
  unfold identify_high_value_targets at hp
  simp only [List.mem_map] at hp
  obtain ⟨q, hq, rfl⟩ := hp
  unfold hvt_mark
  by_cases hdeg : 3 ≤ degree g.relationships q.1
  · simp only [if_pos hdeg]
    constructor
    · intro _
      constructor
      · rw [Metadata.get_set_ne _ _ _ _ (by decide), Metadata.get_set_self]
      · rw [Metadata.get_set_self]
    · intro hlt
      omega
  · simp only [if_neg hdeg]
    refine ⟨fun hge => ?_, fun _ => hclean q hq⟩
    omega

/-- Witness for C8: on the concrete four-entity graph where `domain_0` has
degree 3 and `domain_1` degree 2, the detection pass annotates exactly as
claimed. -/
theorem identify_high_value_targets_witness :
    (∀ p ∈ c8_graph.entities,
      Metadata.get p.2.metadata "high_value_target" = none ∧
      Metadata.get p.2.metadata "connection_count" = none) ∧
    (∀ p ∈ (identify_high_value_targets c8_graph 3).entities,
      (3 ≤ degree c8_graph.relationships p.1 →
        Metadata.get p.2.metadata "high_value_target" = some (MetaVal.b true) ∧
        Metadata.get p.2.metadata "connection_count" =
          some (MetaVal.n (degree c8_graph.relationships p.1))) ∧
      (degree c8_graph.relationships p.1 < 3 →
        Metadata.get p.2.metadata "high_value_target" = none ∧
        Metadata.get p.2.metadata "connection_count" = none)) :=
  ⟨by decide, identify_high_value_targets_spec c8_graph (by decide)⟩

lemma alist_get_none_of_not_mem {α : Type} (l : List (String × α)) (k : String)
    (h : k ∉ l.map Prod.fst) : alist_get l k = none := by
  induction l with
  | nil => rfl
  | cons p rest ih =>
    simp only [List.map_cons, List.mem_cons, not_or] at h
    have hp : ¬ p.1 = k := fun hh => h.1 hh.symm
    simp only [alist_get, hp, ite_false, if_false]
    exact ih h.2

lemma alist_get_append_right {α : Type} (l1 l2 : List (String × α)) (k : String)
    (h : alist_get l1 k = none) : alist_get (l1 ++ l2) k = alist_get l2 k := by
  induction l1 with
  | nil => rfl
  | cons p rest ih =>
    by_cases hp : p.1 = k
    · simp [alist_get, hp] at h
    · simp only [List.cons_append, alist_get, hp, ite_false, if_false] at h ⊢
      exact ih h

lemma get_update_none (old upd : Metadata) (k : String) :
    Metadata.get upd k = none →
    Metadata.get (Metadata.update old upd) k = Metadata.get old k := by
  induction upd generalizing old with
  | nil => intro _; rfl
  | cons p rest ih =>
    intro h
    have hp : ¬ p.1 = k := by
      intro hh
      simp [Metadata.get, alist_get, hh] at h
    have hr : Metadata.get rest k = none := by
      simpa [Metadata.get, alist_get, hp] using h
    show Metadata.get (Metadata.update (Metadata.set old p.1 p.2) rest) k = _
    rw [ih _ hr, Metadata.get_set_ne _ _ _ _ (fun hh => hp hh.symm)]

lemma get_update_some (old upd : Metadata) (k : String) (w : MetaVal) :
    (upd.map Prod.fst).Nodup → Metadata.get upd k = some w →
    Metadata.get (Metadata.update old upd) k = some w := by
  induction upd generalizing old with
  | nil => intro _ h; simp [Metadata.get, alist_get] at h
  | cons p rest ih =>
    intro hnd h
    rw [List.map_cons, List.nodup_cons] at hnd
    by_cases hp : p.1 = k
    · have hw : p.2 = w := by simpa [Metadata.get, alist_get, hp] using h
      have hrest : Metadata.get rest k = none :=
        alist_get_none_of_not_mem rest k (by rw [← hp]; exact hnd.1)
      show Metadata.get (Metadata.update (Metadata.set old p.1 p.2) rest) k = some w
      rw [get_update_none _ _ _ hrest, hp, Metadata.get_set_self, hw]
    · have hr : Metadata.get rest k = some w := by
        simpa [Metadata.get, alist_get, hp] using h
      exact ih (Metadata.set old p.1 p.2) hnd.2 hr

lemma update_entity_meta_length (ents : List (String × Entity)) (eid : String)
    (md : Metadata) : (update_entity_meta ents eid md).length = ents.length := by
  induction ents with
  | nil => rfl
  | cons p rest ih =>
    by_cases h : p.1 = eid <;> simp [update_entity_meta, h, ih]

lemma alist_get_update_entity_meta_self (ents : List (String × Entity)) (eid : String)
    (md : Metadata) :
    alist_get (update_entity_meta ents eid md) eid
      = (alist_get ents eid).map (fun e =>
          Entity.mk e.id e.type e.value e.source e.timestamp
            (Metadata.update e.metadata md)) := by
  induction ents with
  | nil => rfl
  | cons p rest ih =>
    by_cases h : p.1 = eid
    · simp [update_entity_meta, alist_get, h]
    · simp only [update_entity_meta, alist_get, h, ite_false, if_false]
      exact ih

lemma add_entity_hit (g : Graph) (t v s : String) (m : Metadata) (eid : String) (e : Entity)
    (hv : ¬ v = "")
    (hidx : alist_get g.value_index (t ++ ":" ++ normalize_value v) = some eid)
    (hent : alist_get g.entities eid = some e) :
    add_entity g t v s m =
      .ok (if m = [] then g
           else Graph.mk g.target (update_entity_meta g.entities eid m)
             g.relationships g.value_index g.counter, eid) := by
  unfold add_entity
  simp only [hv, ite_false, if_false, hidx, hent]

lemma add_entity_fresh (g : Graph) (t v s : String) (m : Metadata)
    (hv : ¬ v = "")
    (hidx : alist_get g.value_index (t ++ ":" ++ normalize_value v) = none) :
    add_entity g t v s m =
      .ok (Graph.mk g.target
            (g.entities ++ [(t ++ "_" ++ toString g.counter,
              Entity.mk (t ++ "_" ++ toString g.counter) t v s
                ("t" ++ toString g.counter) m)])
            g.relationships
            (g.value_index ++ [(t ++ ":" ++ normalize_value v,
              t ++ "_" ++ toString g.counter)])
            (g.counter + 1),
        t ++ "_" ++ toString g.counter) := by
  unfold add_entity
  simp only [hv, ite_false, if_false, hidx]

lemma add_entity_dangling (g : Graph) (t v s : String) (m : Metadata) (eid : String)
    (hv : ¬ v = "")
    (hidx : alist_get g.value_index (t ++ ":" ++ normalize_value v) = some eid)
    (hent : alist_get g.entities eid = none) :
    add_entity g t v s m = .error (.keyError eid) := by
  unfold add_entity
  simp only [hv, ite_false, if_false, hidx, hent]

lemma add_entity_second (g1 : Graph) (t v2 s2 : String) (m2 : Metadata) (eid : String)
    (e' : Entity)
    (hm2 : (m2.map Prod.fst).Nodup)
    (hv2 : ¬ v2 = "")
    (hkey : alist_get g1.value_index (t ++ ":" ++ normalize_value v2) = some eid)
    (hent : alist_get g1.entities eid = some e') :
    ∃ g2, add_entity g1 t v2 s2 m2 = .ok (g2, eid) ∧
      g2.entities.length = g1.entities.length ∧
      (∀ e1, alist_get g1.entities eid = some e1 →
        alist_get g2.entities eid =
          some (Entity.mk e1.id e1.type e1.value e1.source e1.timestamp
            (Metadata.update e1.metadata m2)) ∧
        (∀ k w, Metadata.get m2 k = some w →
          Metadata.get (Metadata.update e1.metadata m2) k = some w) ∧
        (∀ k, Metadata.get m2 k = none →
          Metadata.get (Metadata.update e1.metadata m2) k = Metadata.get e1.metadata k)) := by
  rw [add_entity_hit g1 t v2 s2 m2 eid e' hv2 hkey hent]
  refine ⟨_, rfl, ?_, ?_⟩
  · by_cases hm : m2 = [] <;> simp [hm, update_entity_meta_length]
  · intro e1 he1
    refine ⟨?_, fun k w hk => get_update_some _ _ _ _ hm2 hk,
      fun k hk => get_update_none _ _ _ hk⟩
    by_cases hm : m2 = []
    · rw [if_pos hm, he1, hm]
      rfl
    · rw [if_neg hm]
      show alist_get (update_entity_meta g1.entities eid m2) eid = _
      rw [alist_get_update_entity_meta_self, he1, Option.map_some']

/-- C5: re-adding a `(type, value)` pair whose normalization matches an
existing entity returns the id of the first add, does not change the entity
count, and rewrites only that entity's metadata: the stored entity keeps its
id, type, value, source and timestamp, its metadata becomes the dict-update
by the new metadata (so a key present in the new metadata ends up with the
new value, and every other key keeps its old value).  The freshness
hypothesis pins the modelled id supply: the id a fresh first add would
generate is not already a stored key. -/
theorem add_entity_dedup (g : Graph) (t v1 v2 s1 s2 : String) (m1 m2 : Metadata)
    (hfresh : (t ++ "_" ++ toString g.counter) ∉ g.entities.map Prod.fst)
    (hm2 : (m2.map Prod.fst).Nodup)
    (hv2 : ¬ v2 = "")
    (hnorm : normalize_value v1 = normalize_value v2)
    (g1 : Graph) (id1 : String)
    (h1 : add_entity g t v1 s1 m1 = .ok (g1, id1)) :
    ∃ g2, add_entity g1 t v2 s2 m2 = .ok (g2, id1) ∧
      g2.entities.length = g1.entities.length ∧
      (∀ e1, alist_get g1.entities id1 = some e1 →
        alist_get g2.entities id1 =
          some (Entity.mk e1.id e1.type e1.value e1.source e1.timestamp
            (Metadata.update e1.metadata m2)) ∧
        (∀ k w, Metadata.get m2 k = some w →
          Metadata.get (Metadata.update e1.metadata m2) k = some w) ∧
        (∀ k, Metadata.get m2 k = none →
          Metadata.get (Metadata.update e1.metadata m2) k = Metadata.get e1.metadata k)) := by
  by_cases hv1 : v1 = ""
  · rw [hv1] at h1
    simp [add_entity] at h1
  cases hidx : alist_get g.value_index (t ++ ":" ++ normalize_value v1) with
  | some eid =>
    cases hent : alist_get g.entities eid with
    | none =>
      rw [add_entity_dangling g t v1 s1 m1 eid hv1 hidx hent] at h1
      cases h1
    | some e =>
      rw [add_entity_hit g t v1 s1 m1 eid e hv1 hidx hent] at h1
      injection h1 with hpair
      injection hpair with hg1 hid1
      subst hid1
      have hkey2 : alist_get g1.value_index (t ++ ":" ++ normalize_value v2) = some eid := by
        rw [← hg1, ← hnorm]
        by_cases hm : m1 = []
        · rw [if_pos hm]
          exact hidx
        · rw [if_neg hm]
          exact hidx
      obtain ⟨e', he'⟩ : ∃ e', alist_get g1.entities eid = some e' := by
        rw [← hg1]
        by_cases hm : m1 = []
        · rw [if_pos hm]
          exact ⟨e, hent⟩
        · refine ⟨Entity.mk e.id e.type e.value e.source e.timestamp
            (Metadata.update e.metadata m1), ?_⟩
          rw [if_neg hm]
          show alist_get (update_entity_meta g.entities eid m1) eid = _
          rw [alist_get_update_entity_meta_self, hent, Option.map_some']
      exact add_entity_second g1 t v2 s2 m2 eid e' hm2 hv2 hkey2 he'
  | none =>
    rw [add_entity_fresh g t v1 s1 m1 hv1 hidx] at h1
    injection h1 with hpair
    injection hpair with hg1 hid1
    subst hid1
    have hkey2 : alist_get g1.value_index (t ++ ":" ++ normalize_value v2) =
        some (t ++ "_" ++ toString g.counter) := by
      rw [← hg1, ← hnorm]
      show alist_get (g.value_index ++ [(t ++ ":" ++ normalize_value v1,
        t ++ "_" ++ toString g.counter)]) (t ++ ":" ++ normalize_value v1) = _
      rw [alist_get_append_right _ _ _ hidx]
      simp [alist_get]
    have hent2 : alist_get g1.entities (t ++ "_" ++ toString g.counter) =
        some (Entity.mk (t ++ "_" ++ toString g.counter) t v1 s1
          ("t" ++ toString g.counter) m1) := by
      rw [← hg1]
      show alist_get (g.entities ++ [(t ++ "_" ++ toString g.counter,
        Entity.mk (t ++ "_" ++ toString g.counter) t v1 s1
          ("t" ++ toString g.counter) m1)]) _ = _
      rw [alist_get_append_right _ _ _ (alist_get_none_of_not_mem _ _ hfresh)]
      simp [alist_get]
    exact add_entity_second g1 t v2 s2 m2 _ _ hm2 hv2 hkey2 hent2

/-- Witness for C5: a second add of the same email under different raw
spelling (case and surrounding whitespace) returns the first id, keeps the
count at one and merges the metadata. -/
theorem add_entity_dedup_witness :
    (("email" ++ "_" ++ toString (Graph.init "witness.com").counter) ∉
      (Graph.init "witness.com").entities.map Prod.fst) ∧
    ((([("b", MetaVal.s "2")] : Metadata).map Prod.fst).Nodup) ∧
    (¬ (" test@test.com " = "")) ∧
    (normalize_value "Test@Test.com" = normalize_value " test@test.com ") ∧
    (add_entity (Graph.init "witness.com") "email" "Test@Test.com" "source1"
      [("a", MetaVal.s "1")] = .ok (c5_g1, "email_0")) ∧
    (∃ g2, add_entity c5_g1 "email" " test@test.com " "source2" [("b", MetaVal.s "2")] =
        .ok (g2, "email_0") ∧
      g2.entities.length = c5_g1.entities.length ∧
      (∀ e1, alist_get c5_g1.entities "email_0" = some e1 →
        alist_get g2.entities "email_0" =
          some (Entity.mk e1.id e1.type e1.value e1.source e1.timestamp
            (Metadata.update e1.metadata [("b", MetaVal.s "2")])) ∧
        (∀ k w, Metadata.get [("b", MetaVal.s "2")] k = some w →
          Metadata.get (Metadata.update e1.metadata [("b", MetaVal.s "2")]) k = some w) ∧
        (∀ k, Metadata.get [("b", MetaVal.s "2")] k = none →
          Metadata.get (Metadata.update e1.metadata [("b", MetaVal.s "2")]) k =
            Metadata.get e1.metadata k))) :=
  ⟨by decide, by decide, by decide, by decide, by decide,
    add_entity_dedup (Graph.init "witness.com") "email" "Test@Test.com" " test@test.com "
      "source1" "source2" [("a", MetaVal.s "1")] [("b", MetaVal.s "2")]
      (by decide) (by decide) (by decide) (by decide) c5_g1 "email_0" (by decide)⟩

lemma update_first_rel_length (l : List (String × Relationship)) (s t ty : String)
    (md : Metadata) : (update_first_rel l s t ty md).length = l.length := by
  induction l with
  | nil => rfl
  | cons p rest ih =>
    by_cases h : p.2.source_id = s ∧ p.2.target_id = t ∧ p.2.relationship_type = ty <;>
      simp [update_first_rel, h, ih]

lemma update_first_rel_core (l : List (String × Relationship)) (s t ty : String)
    (md : Metadata) :
    (update_first_rel l s t ty md).map rel_core = l.map rel_core := by
  induction l with
  | nil => rfl
  | cons p rest ih =>
    by_cases h : p.2.source_id = s ∧ p.2.target_id = t ∧ p.2.relationship_type = ty <;>
      simp [update_first_rel, h, ih, rel_core]

lemma find_dup_pair_update (l : List (String × Relationship)) (s t ty : String)
    (md : Metadata) (rid : String) (r : Relationship)
    (h : find_dup_pair l s t ty = some (rid, r)) :
    find_dup_pair (update_first_rel l s t ty md) s t ty =
      some (rid, Relationship.mk r.id r.source_id r.target_id r.relationship_type
        r.confidence (Metadata.update r.metadata md)) := by
  induction l with
  | nil => simp [find_dup_pair] at h
  | cons p rest ih =>
    by_cases hc : p.2.source_id = s ∧ p.2.target_id = t ∧ p.2.relationship_type = ty
    · have hp : p = (rid, r) := by simpa [find_dup_pair, hc] using h
      subst hp
      obtain ⟨hc1, hc2, hc3⟩ := hc
      simp only [update_first_rel]
      rw [if_pos ⟨hc1, hc2, hc3⟩]
      simp only [find_dup_pair]
      rw [if_pos ⟨hc1, hc2, hc3⟩]
    · simp only [find_dup_pair, hc, ite_false, if_false] at h
      simp only [update_first_rel, hc, ite_false, if_false, find_dup_pair]
      exact ih h

lemma add_relationship_dup_eval (g : Graph) (s t ty : String) (c : ℚ) (md : Metadata)
    (rid : String)
    (hs : (alist_get g.entities s).isSome = true)
    (ht : (alist_get g.entities t).isSome = true)
    (hdup : find_dup_rel g.relationships s t ty = some rid) :
    add_relationship g s t ty c md =
      .ok (if md = [] then g
           else Graph.mk g.target g.entities (update_first_rel g.relationships s t ty md)
             g.value_index g.counter, rid) := by
  rcases Option.isSome_iff_exists.mp hs with ⟨es, hes⟩
  rcases Option.isSome_iff_exists.mp ht with ⟨et, het⟩
  simp [add_relationship, hes, het, hdup]

/-- C6: re-adding a relationship whose `(source, target, type)` triple is
already stored returns the existing (first matching) relationship's id, does
not change the relationship count, leaves the entities untouched, changes no
stored relationship's key, id, endpoints, type or confidence — in
particular the first writer's confidence stays and the new confidence
argument is ignored — and merges only the metadata of the matched
relationship. -/
theorem add_relationship_dedup (g : Graph) (source_id target_id rel_type : String)
    (confidence : ℚ) (metadata : Metadata) (rid : String) (r : Relationship)
    (hs : (alist_get g.entities source_id).isSome = true)
    (ht : (alist_get g.entities target_id).isSome = true)
    (hdup : find_dup_pair g.relationships source_id target_id rel_type = some (rid, r)) :
    ∃ g', add_relationship g source_id target_id rel_type confidence metadata =
        .ok (g', rid) ∧
      g'.relationships.length = g.relationships.length ∧
      g'.entities = g.entities ∧
      g'.relationships.map rel_core = g.relationships.map rel_core ∧
      find_dup_pair g'.relationships source_id target_id rel_type =
        some (rid, Relationship.mk r.id r.source_id r.target_id r.relationship_type
          r.confidence (Metadata.update r.metadata metadata)) := by
  have hdr : find_dup_rel g.relationships source_id target_id rel_type = some rid := by
    simp [find_dup_rel, hdup]
  rw [add_relationship_dup_eval g _ _ _ confidence metadata rid hs ht hdr]
  by_cases hmd : metadata = []
  · refine ⟨_, rfl, by rw [if_pos hmd], by rw [if_pos hmd], by rw [if_pos hmd], ?_⟩
    rw [if_pos hmd, hmd]
    exact hdup
  · rw [if_neg hmd]
    exact ⟨_, rfl, update_first_rel_length _ _ _ _ _, rfl,
      update_first_rel_core _ _ _ _ _, find_dup_pair_update _ _ _ _ _ _ _ hdup⟩

/-- Witness for C6: re-adding the stored `related_to` relationship with a
different confidence and fresh metadata returns the stored id `rel_2`,
keeps the count and the stored confidence 0.9, and merges the metadata. -/
theorem add_relationship_dedup_witness :
    ((alist_get c3_graph.entities "email_0").isSome = true) ∧
    ((alist_get c3_graph.entities "email_1").isSome = true) ∧
    (find_dup_pair c3_graph.relationships "email_0" "email_1" "related_to" =
      some ("rel_2", Relationship.mk "rel_2" "email_0" "email_1" "related_to"
        (mkRat 9 10) [])) ∧
    (∃ g', add_relationship c3_graph "email_0" "email_1" "related_to" (mkRat 1 2)
        [("note", MetaVal.s "dup")] = .ok (g', "rel_2") ∧
      g'.relationships.length = c3_graph.relationships.length ∧
      g'.entities = c3_graph.entities ∧
      g'.relationships.map rel_core = c3_graph.relationships.map rel_core ∧
      find_dup_pair g'.relationships "email_0" "email_1" "related_to" =
        some ("rel_2", Relationship.mk "rel_2" "email_0" "email_1" "related_to"
          (mkRat 9 10) (Metadata.update [] [("note", MetaVal.s "dup")]))) :=
  ⟨by decide, by decide, by decide,
    add_relationship_dedup c3_graph "email_0" "email_1" "related_to" (mkRat 1 2)
      [("note", MetaVal.s "dup")] "rel_2"
      (Relationship.mk "rel_2" "email_0" "email_1" "related_to" (mkRat 9 10) [])
      (by decide) (by decide) (by decide)⟩

end ThreatLink
